import Mathlib

/-!
Verification of the async-ssh2 SFTP layer: a shallow embedding of the
retry bridge (`into_the_future!` in src/util.rs) and of the SFTP session
and file-handle operations (src/sftp.rs), with theorems about the
scheduling, error-propagation and directory-listing behaviour.

Machine details that live outside this repository (the ssh2 crate's error
code for EAGAIN, the platform error kinds, the unified `Error` enum of
src/lib.rs) are modelled explicitly; each such definition says so in its
doc comment.
-/

namespace AsyncSsh2

/-- A protocol-layer error as surfaced by the ssh2 collaborator: an error
code plus a message. `Error::from(e)` for such an error preserves both. -/
structure SshError where
  code : Int
  msg : String
deriving DecidableEq, Repr

/-- The kinds of platform errors relevant to the streaming paths
(`io::ErrorKind` is external; only the would-block distinction matters to
the code under verification, the rest are collapsed into sample kinds). -/
inductive IoErrorKind where
  | wouldBlock
  | notFound
  | permissionDenied
  | other
deriving DecidableEq, Repr

/-- A platform error: a kind plus a message. -/
structure IoError where
  kind : IoErrorKind
  msg : String
deriving DecidableEq, Repr

/-- Modelled from the spec: the unified error type surfaced to callers
(defined in src/lib.rs, which is not part of the given sources): "a unified
error value wrapping either a protocol error (code + message) or a
notifier/transport error". The `SSH2` variant and its `code()` accessor are
also visible in src/sftp.rs line 80. -/
inductive Error where
  | SSH2 (e : SshError)
  | Io (e : IoError)
deriving DecidableEq, Repr

/-- Whether the unified error is the protocol's reserved
"no more directory entries" code, -16 (used only in theorem statements;
the source tests this pattern inline in Sftp::readdir). -/
def Error.isNoMoreEntries : Error → Bool
  | Error.SSH2 e => e.code == -16
  | _ => false

/-- The outcome of one poll of a future: completed with a value, or
suspended (`Poll` from the task system). -/
inductive Poll (A : Type) where
  | ready (a : A)
  | pending
deriving DecidableEq, Repr

/-- Whether a poll outcome is a completion with an error (used in theorem
statements to distinguish an error completion from a suspension). -/
def isReadyError {E A : Type} : Poll (Except E A) → Bool
  | Poll.ready (Except.error _) => true
  | _ => false

/-- Modelled from the external ssh2/libssh2 collaborator: the bridge's
would-block test `io::Error::from(ssh2::Error::from_errno(e.code())).kind()
== io::ErrorKind::WouldBlock` holds exactly for the EAGAIN session error
code, -37. -/
def wouldBlockCode (c : Int) : Bool := c == -37

/-- The readiness Notifier (`Aio` in the crate), modelled by the outcome
its `set_waker` registration call produces when invoked. -/
structure Aio where
  setWaker : Except IoError Unit

/-- The result of one invocation of a wrapped synchronous operation: a
success value or a protocol error (a would-block is the error whose code
satisfies `wouldBlockCode`). -/
inductive OpResult (R : Type) where
  | ok (v : R)
  | err (e : SshError)

/-- One poll turn of the `ScopedFuture` created by `into_the_future!`
(src/util.rs lines 12-26), as a function of the single invocation of the
wrapped operation made on this turn and of the shared optional notifier:
a would-block error registers the waker (when a notifier is present;
a registration failure aborts via the `?` operator) and suspends, any
other error and a success complete the future immediately. -/
def scopedFuturePoll {R : Type} (opRes : OpResult R) (aio : Option Aio) :
    Poll (Except Error R) :=
  match opRes with
  | OpResult.err e =>
    if wouldBlockCode e.code then
      match aio with
      | some a =>
        match a.setWaker with
        | Except.error ioe => Poll.ready (Except.error (Error.Io ioe))
        | Except.ok _ => Poll.pending
      | none => Poll.pending
    else
      Poll.ready (Except.error (Error.SSH2 e))
  | OpResult.ok v => Poll.ready (Except.ok v)

/-- Driving a bridge future through scheduling turns: on each turn the
wrapped operation is invoked exactly once, consuming the next element of
`resps` (the operation's successive results); the returned list records
each turn's poll outcome. Polling stops at the first `ready` outcome —
the completed future is never polled again, so the operation is never
invoked again. -/
def runBridge {R : Type} (aio : Option Aio) :
    List (OpResult R) → List (Poll (Except Error R))
  | [] => []
  | r :: rs =>
    match scopedFuturePoll r aio with
    | Poll.pending => Poll.pending :: runBridge aio rs
    | Poll.ready out => [Poll.ready out]

/-- One poll turn of `File::poll_read` (src/sftp.rs lines 210-228), as a
function of the result of the one underlying nonblocking `read` call made
on this turn (the `loop` in the source returns on every match arm, so each
poll performs exactly one read attempt). A would-block registers the waker
(a registration failure completes with that error via `?`) and suspends;
any other error or a success completes. -/
def filePollRead (res : Except IoError Nat) (aio : Option Aio) :
    Poll (Except IoError Nat) :=
  match res with
  | Except.error e =>
    if e.kind = IoErrorKind.wouldBlock then
      match aio with
      | some a =>
        match a.setWaker with
        | Except.error we => Poll.ready (Except.error we)
        | Except.ok _ => Poll.pending
      | none => Poll.pending
    else
      Poll.ready (Except.error e)
  | Except.ok val => Poll.ready (Except.ok val)

/-- One poll turn of `File::poll_write` (src/sftp.rs lines 232-250); the
same shape as `filePollRead` with the underlying call being `write`. -/
def filePollWrite (res : Except IoError Nat) (aio : Option Aio) :
    Poll (Except IoError Nat) :=
  match res with
  | Except.error e =>
    if e.kind = IoErrorKind.wouldBlock then
      match aio with
      | some a =>
        match a.setWaker with
        | Except.error we => Poll.ready (Except.error we)
        | Except.ok _ => Poll.pending
      | none => Poll.pending
    else
      Poll.ready (Except.error e)
  | Except.ok val => Poll.ready (Except.ok val)

/-- One poll turn of `File::poll_flush` (src/sftp.rs lines 252-266); the
same shape with the underlying call being `flush`, which returns no byte
count. -/
def filePollFlush (res : Except IoError Unit) (aio : Option Aio) :
    Poll (Except IoError Unit) :=
  match res with
  | Except.error e =>
    if e.kind = IoErrorKind.wouldBlock then
      match aio with
      | some a =>
        match a.setWaker with
        | Except.error we => Poll.ready (Except.error we)
        | Except.ok _ => Poll.pending
      | none => Poll.pending
    else
      Poll.ready (Except.error e)
  | Except.ok val => Poll.ready (Except.ok val)

/-- `File::poll_shutdown` (src/sftp.rs lines 268-270): ignores the poll
context (modelled as an opaque number) and immediately completes with
success, performing no protocol call (its definition consults nothing). -/
def filePollShutdown (_cx : Nat) : Poll (Except IoError Unit) :=
  Poll.ready (Except.ok ())

/-- Modelled from the external ssh2 collaborator: the open flag bits
(`OpenFlags` bitflags; LIBSSH2_FXF_READ and friends). -/
def OpenFlags.READ : Nat := 0x1

/-- The write flag bit. -/
def OpenFlags.WRITE : Nat := 0x2

/-- The append flag bit. -/
def OpenFlags.APPEND : Nat := 0x4

/-- The create flag bit. -/
def OpenFlags.CREATE : Nat := 0x8

/-- The truncate flag bit. -/
def OpenFlags.TRUNCATE : Nat := 0x10

/-- The exclusive flag bit. -/
def OpenFlags.EXCLUSIVE : Nat := 0x20

/-- The `OpenType` of the ssh2 collaborator: a regular-file handle or a
directory-listing handle. -/
inductive OpenType where
  | File
  | Dir
deriving DecidableEq, Repr

/-- The `Sftp` session (src/sftp.rs lines 14-18): the opaque protocol
session (an id) and the shared optional notifier handle; `self.aio.clone()`
on the reference-counted handle yields a handle to the identical notifier,
modelled by plain copying of the field. -/
structure Sftp where
  inner : Nat
  aio : Option Aio

/-- The `File` handle (src/sftp.rs lines 20-24): the opaque protocol file
object (an id) and the shared optional notifier handle. -/
structure File where
  inner : Nat
  aio : Option Aio

/-- `File::new` (src/sftp.rs lines 164-166). -/
def File.new (file : Nat) (aio : Option Aio) : File :=
  { inner := file, aio := aio }

/-- `Sftp::open_mode` (src/sftp.rs lines 32-42): the resolved outcome of
the bridged `inner.open_mode` protocol call is passed as `res` (the
would-block turns it absorbs are covered by `runBridge`); on success the
returned handle is built with `File::new` from the session's cloned
notifier handle; a failure propagates via `?`. The filename, flags, mode
and open type are forwarded to the protocol collaborator and do not affect
the wrapper's own behaviour. -/
def Sftp.openMode (s : Sftp) (_filename : List String) (_flags : Nat)
    (_mode : Int) (_ty : OpenType) (res : Except Error Nat) :
    Except Error File :=
  match res with
  | Except.error e => Except.error e
  | Except.ok file => Except.ok (File.new file s.aio)

/-- `Sftp::open` (src/sftp.rs lines 45-48); named `openFile` because
`open` is reserved in Lean. -/
def Sftp.openFile (s : Sftp) (filename : List String)
    (res : Except Error Nat) : Except Error File :=
  s.openMode filename OpenFlags.READ 0o644 OpenType.File res

/-- `Sftp::create` (src/sftp.rs lines 51-59). -/
def Sftp.create (s : Sftp) (filename : List String)
    (res : Except Error Nat) : Except Error File :=
  s.openMode filename (OpenFlags.WRITE ||| OpenFlags.TRUNCATE) 0o644
    OpenType.File res

/-- `Sftp::opendir` (src/sftp.rs lines 62-65). -/
def Sftp.opendir (s : Sftp) (dirname : List String)
    (res : Except Error Nat) : Except Error File :=
  s.openMode dirname OpenFlags.READ 0 OpenType.Dir res

/-- The accumulation loop of `Sftp::readdir` (src/sftp.rs lines 71-87),
generic in the metadata type `σ` (`FileStat` is opaque pass-through data).
Paths are modelled as lists of components and each single-entry
`dir.readdir()` outcome as an `Except Error (String × σ)` — the entry name
a single relative component, as the protocol produces it. An `ok` entry
named "." or ".." is skipped, any other `ok` entry is pushed as
`dirname.join(name)` (component append); the protocol error with the
reserved code -16 breaks the loop successfully with the accumulated
entries; any other error returns immediately with that error. An exhausted
result list (which the protocol cannot produce: every call returns
something) is `none`. -/
def readdirLoop {σ : Type} (dirname : List String)
    (acc : List (List String × σ)) :
    List (Except Error (String × σ)) →
      Option (Except Error (List (List String × σ)))
  | [] => none
  | r :: rest =>
    match r with
    | Except.ok (filename, stat) =>
      if filename = "." ∨ filename = ".." then
        readdirLoop dirname acc rest
      else
        readdirLoop dirname (acc ++ [(dirname ++ [filename], stat)]) rest
    | Except.error (Error.SSH2 e) =>
      if e.code = -16 then some (Except.ok acc)
      else some (Except.error (Error.SSH2 e))
    | Except.error e => some (Except.error e)

/-- `Sftp::readdir` (src/sftp.rs lines 68-89) after its `opendir` has
succeeded (an `opendir` failure propagates before the loop starts): run
the accumulation loop with an empty accumulator over the successive
single-entry outcomes. -/
def Sftp.readdir {σ : Type} (dirname : List String)
    (results : List (Except Error (String × σ))) :
    Option (Except Error (List (List String × σ))) :=
  readdirLoop dirname [] results

/-- Every successful run of the readdir loop extends the accumulator with
entries that each join the queried directory with a single entry name that
is neither "." nor "..", the name-and-metadata pair stemming from one of
the single-entry outcomes. Shared shape lemma for the readdir theorems. -/
theorem readdirLoop_ok_shape {σ : Type} (dirname : List String) :
    ∀ (results : List (Except Error (String × σ)))
      (acc entries : List (List String × σ)),
      readdirLoop dirname acc results = some (Except.ok entries) →
      ∃ extra, entries = acc ++ extra ∧
        ∀ q ∈ extra, ∃ name stat, name ≠ "." ∧ name ≠ ".." ∧
          q = (dirname ++ [name], stat) ∧ Except.ok (name, stat) ∈ results := by
  intro results
  induction results with
  | nil =>
    intro acc entries h
    simp [readdirLoop] at h
  | cons r rest ih =>
    intro acc entries h
    cases r with
    | ok p =>
      obtain ⟨filename, stat⟩ := p
      by_cases hf : filename = "." ∨ filename = ".."
      · rw [readdirLoop, if_pos hf] at h
        obtain ⟨extra, he, hq⟩ := ih acc entries h
        exact ⟨extra, he, fun q hqe => by
          obtain ⟨name, st, h1, h2, h3, h4⟩ := hq q hqe
          exact ⟨name, st, h1, h2, h3, List.mem_cons_of_mem _ h4⟩⟩
      · rw [readdirLoop, if_neg hf] at h
        obtain ⟨extra, he, hq⟩ := ih _ entries h
        push_neg at hf
        refine ⟨(dirname ++ [filename], stat) :: extra, by simpa using he,
          fun q hqe => ?_⟩
        rcases List.mem_cons.mp hqe with hq1 | hq2
        · exact ⟨filename, stat, hf.1, hf.2, hq1, List.mem_cons_self _ _⟩
        · obtain ⟨name, st, h1, h2, h3, h4⟩ := hq q hq2
          exact ⟨name, st, h1, h2, h3, List.mem_cons_of_mem _ h4⟩
    | error err =>
      cases err with
      | SSH2 e =>
        by_cases hc : e.code = -16
        · rw [readdirLoop] at h
          simp only [hc, if_pos rfl] at h
          obtain rfl : acc = entries := by
            simpa using h
          exact ⟨[], by simp⟩
        · rw [readdirLoop, if_neg hc] at h
          simp at h
      | Io e =>
        simp [readdirLoop] at h

/-! ## C1: the bridge completes with the success value after the would-block turns -/

/-- C1: for a wrapped operation that yields a would-block error `k` times
and then the success value `v`, with every waker registration succeeding
(or no notifier installed), driving the bridge invokes the operation once
per poll turn, yields `pending` on each of the `k` would-block turns,
completes with exactly `Except.ok v` on the turn after the last
would-block, and never invokes the operation again afterwards (the
remaining responses `extra` are never consumed): exactly `k + 1`
invocations occur. -/
theorem bridge_retry_completes {R : Type} (k : Nat) (v : R) (e : SshError)
    (aio : Option Aio) (extra : List (OpResult R))
    (hw : wouldBlockCode e.code = true)
    (ha : ∀ a, aio = some a → a.setWaker = Except.ok ()) :
    runBridge aio (List.replicate k (OpResult.err e) ++ OpResult.ok v :: extra) =
      List.replicate k Poll.pending ++ [Poll.ready (Except.ok v)] ∧
    (runBridge aio
        (List.replicate k (OpResult.err e) ++ OpResult.ok v :: extra)).length
      = k + 1 := by
  have hpend : scopedFuturePoll (R := R) (OpResult.err e) aio = Poll.pending := by
    cases aio with
    | none => simp [scopedFuturePoll, hw]
    | some a => simp [scopedFuturePoll, hw, ha a rfl]
  have hmain : runBridge aio
      (List.replicate k (OpResult.err e) ++ OpResult.ok v :: extra) =
      List.replicate k Poll.pending ++ [Poll.ready (Except.ok v)] := by
    induction k with
    | zero => simp [runBridge, scopedFuturePoll]
    | succ n ih =>
      simp only [List.replicate_succ, List.cons_append, runBridge, hpend,
        List.append_eq, ih]
  refine ⟨hmain, ?_⟩
  rw [hmain]
  simp

/-- Witness for C1 at a concrete input: two would-blocks followed by
success 37, with a notifier whose registration succeeds. -/
theorem bridge_retry_completes_witness :
    runBridge (some ⟨Except.ok ()⟩)
        (List.replicate 2 (OpResult.err ⟨-37, "again"⟩) ++
          OpResult.ok (37 : Nat) :: [OpResult.ok 99]) =
      List.replicate 2 Poll.pending ++ [Poll.ready (Except.ok 37)] ∧
    (runBridge (some ⟨Except.ok ()⟩)
        (List.replicate 2 (OpResult.err ⟨-37, "again"⟩) ++
          OpResult.ok (37 : Nat) :: [OpResult.ok 99])).length = 2 + 1 :=
  bridge_retry_completes 2 37 ⟨-37, "again"⟩ (some ⟨Except.ok ()⟩)
    [OpResult.ok 99] (by decide)
    (by intro a h; cases h; rfl)

/-! ## C2: would-block without a notifier (corrected: the code suspends, it does not error) -/

/-- C2 counterexample: at a concrete would-block input with the notifier
absent, both the bridge poll and the streaming read poll return `pending`
(a suspension), not a completion with an error, contradicting the claim
that no-notifier would-block is escalated to a terminal error. -/
theorem noNotifier_wouldBlock_ce :
    scopedFuturePoll (R := Nat) (OpResult.err ⟨-37, "again"⟩) none = Poll.pending ∧
    isReadyError (scopedFuturePoll (R := Nat) (OpResult.err ⟨-37, "again"⟩) none)
      = false ∧
    filePollRead (Except.error ⟨IoErrorKind.wouldBlock, "again"⟩) none = Poll.pending ∧
    isReadyError (filePollRead (Except.error ⟨IoErrorKind.wouldBlock, "again"⟩) none)
      = false := by
  refine ⟨rfl, rfl, rfl, rfl⟩

/-- C2 (amended): for every bridged operation and every streaming
read/write/flush, a would-block with the shared notifier handle absent
returns `pending` — the operation suspends (with no waker registered, since
there is nothing to register with) and does not complete with an error. -/
theorem noNotifier_wouldBlock_pending {R : Type} (e : SshError)
    (hw : wouldBlockCode e.code = true) (ioe : IoError)
    (hk : ioe.kind = IoErrorKind.wouldBlock) :
    scopedFuturePoll (R := R) (OpResult.err e) none = Poll.pending ∧
    filePollRead (Except.error ioe) none = Poll.pending ∧
    filePollWrite (Except.error ioe) none = Poll.pending ∧
    filePollFlush (Except.error ioe) none = Poll.pending := by
  refine ⟨?_, ?_, ?_, ?_⟩
  · simp [scopedFuturePoll, hw]
  · simp [filePollRead, hk]
  · simp [filePollWrite, hk]
  · simp [filePollFlush, hk]

/-- Witness for the amended C2 at a concrete would-block input. -/
theorem noNotifier_wouldBlock_pending_witness :
    scopedFuturePoll (R := Nat) (OpResult.err ⟨-37, "blocked"⟩) none = Poll.pending ∧
    filePollRead (Except.error ⟨IoErrorKind.wouldBlock, "blocked"⟩) none
      = Poll.pending ∧
    filePollWrite (Except.error ⟨IoErrorKind.wouldBlock, "blocked"⟩) none
      = Poll.pending ∧
    filePollFlush (Except.error ⟨IoErrorKind.wouldBlock, "blocked"⟩) none
      = Poll.pending :=
  noNotifier_wouldBlock_pending ⟨-37, "blocked"⟩ (by decide)
    ⟨IoErrorKind.wouldBlock, "blocked"⟩ rfl

/-! ## C4: non-would-block errors complete the bridge immediately, unchanged -/

/-- C4: a wrapped operation failing with an error whose code is not the
would-block condition completes the bridged call immediately with that very
error (code and message intact, wrapped in the unified type's `SSH2`
variant), regardless of the notifier; driving the bridge shows the
operation is never invoked again after such an error (any further
responses are never consumed). -/
theorem bridge_terminal_error {R : Type} (e : SshError)
    (hw : wouldBlockCode e.code = false) (aio : Option Aio)
    (rest : List (OpResult R)) :
    scopedFuturePoll (R := R) (OpResult.err e) aio =
      Poll.ready (Except.error (Error.SSH2 e)) ∧
    runBridge aio (OpResult.err e :: rest) =
      [Poll.ready (Except.error (Error.SSH2 e))] := by
  have h : scopedFuturePoll (R := R) (OpResult.err e) aio =
      Poll.ready (Except.error (Error.SSH2 e)) := by
    simp [scopedFuturePoll, hw]
  exact ⟨h, by simp [runBridge, h]⟩

/-- Witness for C4: a permission-denied style error, whose code differs
from the would-block code, completes immediately even though more
responses follow. -/
theorem bridge_terminal_error_witness :
    scopedFuturePoll (R := Nat) (OpResult.err ⟨-2, "denied"⟩) (some ⟨Except.ok ()⟩) =
      Poll.ready (Except.error (Error.SSH2 ⟨-2, "denied"⟩)) ∧
    runBridge (some ⟨Except.ok ()⟩) (OpResult.err ⟨-2, "denied"⟩ :: [OpResult.ok 5]) =
      [Poll.ready (Except.error (Error.SSH2 ⟨-2, "denied"⟩))] :=
  bridge_terminal_error ⟨-2, "denied"⟩ (by decide) (some ⟨Except.ok ()⟩)
    [OpResult.ok 5]

/-! ## C5: the streaming read poll contract -/

/-- C5: one poll of the streaming read: a would-block (with the waker
registration succeeding whenever a notifier is present) suspends — it
returns neither a byte count nor an error; any other error completes with
exactly that error; a successful read of `n` bytes completes with exactly
`n`, including `n = 0` which signals end of stream without error. -/
theorem filePollRead_contract (aio : Option Aio) (eWb : IoError)
    (hk : eWb.kind = IoErrorKind.wouldBlock)
    (ha : ∀ a, aio = some a → a.setWaker = Except.ok ())
    (eOther : IoError) (ho : eOther.kind ≠ IoErrorKind.wouldBlock) (n : Nat) :
    filePollRead (Except.error eWb) aio = Poll.pending ∧
    filePollRead (Except.error eOther) aio = Poll.ready (Except.error eOther) ∧
    filePollRead (Except.ok n) aio = Poll.ready (Except.ok n) := by
  refine ⟨?_, ?_, rfl⟩
  · cases aio with
    | none => simp [filePollRead, hk]
    | some a => simp [filePollRead, hk, ha a rfl]
  · simp [filePollRead, ho]

/-- Witness for C5: a would-block suspends, a not-found error propagates,
and a zero-byte success signals end of stream, with a notifier present. -/
theorem filePollRead_contract_witness :
    filePollRead (Except.error ⟨IoErrorKind.wouldBlock, "again"⟩)
        (some ⟨Except.ok ()⟩) = Poll.pending ∧
    filePollRead (Except.error ⟨IoErrorKind.notFound, "missing"⟩)
        (some ⟨Except.ok ()⟩) =
      Poll.ready (Except.error ⟨IoErrorKind.notFound, "missing"⟩) ∧
    filePollRead (Except.ok 0) (some ⟨Except.ok ()⟩) =
      Poll.ready (Except.ok 0) :=
  filePollRead_contract (some ⟨Except.ok ()⟩) ⟨IoErrorKind.wouldBlock, "again"⟩
    rfl (by intro a h; cases h; rfl) ⟨IoErrorKind.notFound, "missing"⟩
    (by decide) 0

/-! ## C6: a failing waker registration aborts the bridged operation -/

/-- C6: when the wrapped operation would-blocks and the notifier is
present but its `set_waker` registration fails, the bridge completes
immediately (it does not suspend) with that registration failure wrapped
in the unified error type's notifier/transport variant. -/
theorem bridge_setWaker_failure {R : Type} (e : SshError)
    (hw : wouldBlockCode e.code = true) (werr : IoError) :
    scopedFuturePoll (R := R) (OpResult.err e) (some ⟨Except.error werr⟩) =
      Poll.ready (Except.error (Error.Io werr)) := by
  simp [scopedFuturePoll, hw]

/-- Witness for C6: a concrete would-block whose waker registration fails
with a transport error completes with that error. -/
theorem bridge_setWaker_failure_witness :
    scopedFuturePoll (R := Nat) (OpResult.err ⟨-37, "again"⟩)
        (some ⟨Except.error ⟨IoErrorKind.other, "broken pipe"⟩⟩) =
      Poll.ready (Except.error (Error.Io ⟨IoErrorKind.other, "broken pipe"⟩)) :=
  bridge_setWaker_failure ⟨-37, "again"⟩ (by decide)
    ⟨IoErrorKind.other, "broken pipe"⟩

/-! ## C10: stream shutdown completes immediately with success -/

/-- C10: for every poll context, `poll_shutdown` completes on the first
poll with success — by its equation it is the constant
`ready (ok ())`, so it never suspends, never errors, and consults no
protocol state. -/
theorem filePollShutdown_immediate (cx : Nat) :
    filePollShutdown cx = Poll.ready (Except.ok ()) := rfl

/-! ## C3: readdir filters pseudo-entries, ends on -16, propagates other errors -/

/-- C3: a successful `readdir` listing never contains an entry whose name
component (the final path component) is "." or ".."; the single-entry
outcome with the reserved protocol code -16 terminates the loop
successfully with exactly the entries accumulated so far (the remaining
outcomes untouched); any other error makes the loop return that error
immediately, carrying none of the accumulated entries. -/
theorem readdir_filters_and_terminates {σ : Type} (dirname : List String)
    (results rest : List (Except Error (String × σ)))
    (entries acc : List (List String × σ)) (q : List String × σ) (m : String)
    (err : Error)
    (hok : Sftp.readdir dirname results = some (Except.ok entries))
    (hq : q ∈ entries)
    (herr : Error.isNoMoreEntries err = false) :
    (q.1.getLast? ≠ some "." ∧ q.1.getLast? ≠ some "..") ∧
    readdirLoop dirname acc (Except.error (Error.SSH2 ⟨-16, m⟩) :: rest) =
      some (Except.ok acc) ∧
    readdirLoop dirname acc (Except.error err :: rest) =
      some (Except.error err) := by
  refine ⟨?_, ?_, ?_⟩
  · obtain ⟨extra, he, hsh⟩ := readdirLoop_ok_shape dirname results [] entries hok
    rw [he] at hq
    simp only [List.nil_append] at hq
    obtain ⟨name, stat, h1, h2, h3, _⟩ := hsh q hq
    rw [h3]
    simp only [List.getLast?_concat]
    constructor
    · intro hcontra
      exact h1 (Option.some.injEq .. ▸ hcontra)
    · intro hcontra
      exact h2 (Option.some.injEq .. ▸ hcontra)
  · simp [readdirLoop]
  · cases err with
    | SSH2 e =>
      have hc : e.code ≠ -16 := by
        simpa [Error.isNoMoreEntries] using herr
      simp [readdirLoop, hc]
    | Io e => simp [readdirLoop]

/-- Witness for C3: a two-outcome directory (one real entry, then the
reserved -16 code), giving a one-element listing; an -16 outcome returning
a nonempty accumulator; and a permission error propagating instead. -/
theorem readdir_filters_and_terminates_witness :
    ((["d", "sub"] : List String).getLast? ≠ some "." ∧
      (["d", "sub"] : List String).getLast? ≠ some "..") ∧
    readdirLoop (σ := Nat) ["d"] [(["d", "x"], 7)]
        (Except.error (Error.SSH2 ⟨-16, "eof"⟩) :: [Except.ok ("y", 1)]) =
      some (Except.ok [(["d", "x"], 7)]) ∧
    readdirLoop (σ := Nat) ["d"] [(["d", "x"], 7)]
        (Except.error (Error.SSH2 ⟨-3, "denied"⟩) :: [Except.ok ("y", 1)]) =
      some (Except.error (Error.SSH2 ⟨-3, "denied"⟩)) :=
  readdir_filters_and_terminates ["d"]
    [Except.ok ("sub", 7), Except.error (Error.SSH2 ⟨-16, "eof"⟩)]
    [Except.ok ("y", 1)] [(["d", "sub"], 7)] [(["d", "x"], 7)]
    (["d", "sub"], 7) "eof" (Error.SSH2 ⟨-3, "denied"⟩)
    rfl (by simp) (by decide)

/-! ## C7: every handle shares the session's notifier -/

/-- C7: every file handle produced by `open_mode` or by any of its
convenience forms (`open`, `create`, `opendir`) holds exactly the
session's shared notifier handle (the clone of a reference-counted handle
is a handle to the identical notifier, modelled as the copied value), and
`File::new` installs precisely the handle it is given, so no operation
ever substitutes a different one. -/
theorem file_shares_session_notifier (s : Sftp) (fn dn : List String)
    (flags : Nat) (mode : Int) (ty : OpenType) (res : Except Error Nat)
    (f1 f2 f3 f4 : File) (i : Nat) (a : Option Aio)
    (h1 : s.openMode fn flags mode ty res = Except.ok f1)
    (h2 : s.openFile fn res = Except.ok f2)
    (h3 : s.create fn res = Except.ok f3)
    (h4 : s.opendir dn res = Except.ok f4) :
    f1.aio = s.aio ∧ f2.aio = s.aio ∧ f3.aio = s.aio ∧ f4.aio = s.aio ∧
    (File.new i a).aio = a := by
  cases res with
  | error e => simp [Sftp.openMode] at h1
  | ok file =>
    simp only [Sftp.openMode, Sftp.openFile, Sftp.create, Sftp.opendir,
      Except.ok.injEq] at h1 h2 h3 h4
    subst h1
    subst h2
    subst h3
    subst h4
    exact ⟨rfl, rfl, rfl, rfl, rfl⟩

/-- Witness for C7 at a concrete session with no notifier installed and a
concrete successful protocol open. -/
theorem file_shares_session_notifier_witness :
    (File.mk 5 none).aio = (Sftp.mk 0 none).aio ∧
    (File.mk 5 none).aio = (Sftp.mk 0 none).aio ∧
    (File.mk 5 none).aio = (Sftp.mk 0 none).aio ∧
    (File.mk 5 none).aio = (Sftp.mk 0 none).aio ∧
    (File.new 9 (some ⟨Except.ok ()⟩)).aio = some ⟨Except.ok ()⟩ :=
  file_shares_session_notifier (Sftp.mk 0 none) ["p"] ["q"] OpenFlags.READ
    0o644 OpenType.File (Except.ok 5) (File.mk 5 none) (File.mk 5 none)
    (File.mk 5 none) (File.mk 5 none) 9 (some ⟨Except.ok ()⟩) rfl rfl rfl rfl

/-! ## C8: entries carry the joined path, not the bare relative name (corrected) -/

/-- C8 counterexample: listing directory `d` whose single entry is named
`f` produces the joined path `d/f` as the pair's first component, not the
bare relative name `f` — `readdir` pushes `dirname.join(name)`. -/
theorem readdir_joined_name_ce :
    Sftp.readdir (σ := Nat) ["d"]
        [Except.ok ("f", 0), Except.error (Error.SSH2 ⟨-16, "eof"⟩)] =
      some (Except.ok [(["d", "f"], 0)]) ∧
    (["d", "f"] : List String) ≠ ["f"] := by
  exact ⟨rfl, by decide⟩

/-- C8 (amended): each element of a successful listing pairs the queried
directory path joined with the entry's single relative name: its prefix is
the queried directory, it decomposes as that directory plus one final name
component, and that name together with the element's metadata is exactly a
pair produced by one of the single-entry reads. -/
theorem readdir_entries_joined {σ : Type} (dirname : List String)
    (results : List (Except Error (String × σ)))
    (entries : List (List String × σ)) (q : List String × σ)
    (hok : Sftp.readdir dirname results = some (Except.ok entries))
    (hq : q ∈ entries) :
    q.1.take dirname.length = dirname ∧
    q.1 = dirname ++ [q.1.getLastD ""] ∧
    Except.ok (q.1.getLastD "", q.2) ∈ results := by
  obtain ⟨extra, he, hsh⟩ := readdirLoop_ok_shape dirname results [] entries hok
  rw [he] at hq
  simp only [List.nil_append] at hq
  obtain ⟨name, stat, _, _, h3, h4⟩ := hsh q hq
  subst h3
  refine ⟨List.take_left dirname [name], ?_, ?_⟩
  · simp [List.getLastD_concat]
  · simpa [List.getLastD_concat] using h4

/-- Witness for the amended C8 on the one-entry listing of directory `d`. -/
theorem readdir_entries_joined_witness :
    (["d", "f"] : List String).take 1 = ["d"] ∧
    (["d", "f"] : List String) = ["d"] ++ ["f"] ∧
    (Except.ok ("f", (0 : Nat)) : Except Error (String × Nat)) ∈
      [Except.ok ("f", 0), Except.error (Error.SSH2 ⟨-16, "eof"⟩)] :=
  readdir_entries_joined ["d"]
    [Except.ok ("f", 0), Except.error (Error.SSH2 ⟨-16, "eof"⟩)]
    [(["d", "f"], 0)] (["d", "f"], 0) rfl (by simp)

/-! ## C9: open and create are fixed-flag forms of open_mode -/

/-- C9: `open` equals `open_mode` with the read-only flag, mode 0o644 and
the regular-file open type; `create` equals `open_mode` with the
write+truncate flags, mode 0o644 and the regular-file open type; and the
write+truncate flag combination includes no read bit. -/
theorem open_create_fixed_flags (s : Sftp) (fn : List String)
    (res : Except Error Nat) :
    s.openFile fn res = s.openMode fn OpenFlags.READ 0o644 OpenType.File res ∧
    s.create fn res =
      s.openMode fn (OpenFlags.WRITE ||| OpenFlags.TRUNCATE) 0o644
        OpenType.File res ∧
    (OpenFlags.WRITE ||| OpenFlags.TRUNCATE) &&& OpenFlags.READ = 0 := by
  exact ⟨rfl, rfl, by decide⟩

end AsyncSsh2
